import Mathlib

/-!
Shallow embedding of `tensorflow/contrib/distributions/python/ops/autoregressive.py`
(the `Autoregressive` distribution class) and proofs of properties of it.

Tensors are an opaque type parameter `α`.  An external
`tfp.distributions.Distribution`-like object is a record of its operations
(`sample`, `log_prob`, `prob`) and static data (`event_shape`, `batch_shape`,
`dtype`, ...).  Seeds and dtypes are natural numbers.  The external helper
`distribution_util.gen_new_seed` is kept abstract: definitions that call it
take it as an explicit function argument `g`, and the fresh entropy drawn by
`np.random.randint(2**32 - 1)` is an explicit argument `entropy`.
-/

/-- Python `TensorShape`: `dims = none` models unknown rank; each dimension may
itself be unknown (`none`). -/
structure TensorShape where
  dims : Option (List (Option Nat))
deriving Repr, DecidableEq

/-- Mirrors `tensor_shape.TensorShape.num_elements`: the product of the dimensions when the shape
is fully known, else `none`. -/
def TensorShape.num_elements (s : TensorShape) : Option Nat :=
  match s.dims with
  | none => none
  | some ds => ds.foldr
      (fun d acc => match d, acc with
        | some n, some m => some (n * m)
        | _, _ => none)
      (some 1)

/-- Record of the external distribution contract used by `autoregressive.py`: an object
exposing `sample` (with and without a leading sample-count argument),
`log_prob`, `prob`, shapes and `dtype`.  `sample_n d n seed` models
`d.sample(n, seed=seed)`; `sample1 d seed` models `d.sample(seed=seed)`. -/
structure DistLike (α : Type) where
  sample_n : Nat → Nat → α
  sample1 : Nat → α
  log_prob : α → α
  prob : α → α
  event_shape : TensorShape
  batch_shape : TensorShape
  event_shape_tensor : α
  batch_shape_tensor : α
  dtype : Nat
  reparameterization_type : Nat

/-- Errors raised by `Autoregressive.__init__` (both are `ValueError`s in the
source; we distinguish them by their message). -/
inductive ARError where
  /-- Message: "distribution_fn must generate a distribution with fully known
  event_shape." -/
  | unknownEventShape : ARError
  /-- Message: "num_steps (...) must be at least 1.", carrying the offending
  value. -/
  | nonPositiveNumSteps (n : Int) : ARError
deriving Repr, DecidableEq

/-- State of an `Autoregressive` instance: the four attributes set by
`__init__` plus the data handed to the `Distribution` base-class constructor
(`dtype`, `validate_args`, `allow_nan_stats`, `name`). -/
structure Autoregressive (α : Type) where
  _distribution_fn : Option α → DistLike α
  _sample0 : Option α
  _distribution0 : DistLike α
  _num_steps : Int
  _dtype : Nat
  _reparameterization_type : Nat
  _validate_args : Bool
  _allow_nan_stats : Bool
  _name : String

namespace Autoregressive

variable {α : Type}

/-- Mirrors `self._distribution0 = (distribution_fn() if sample0 is None else
distribution_fn(sample0))`.  A call with no argument is modelled as applying
the function to `none`. -/
def mkDistribution0 (distribution_fn : Option α → DistLike α) (sample0 : Option α) :
    DistLike α :=
  match sample0 with
  | none => distribution_fn none
  | some s => distribution_fn (some s)

/-- Mirrors `Autoregressive.__init__`.  Builds `distribution0`, resolves `num_steps`
(defaulting to `event_shape.num_elements()` when unspecified), validates it,
and stores the attributes; `ValueError`s become `Except.error`. -/
def init (distribution_fn : Option α → DistLike α) (sample0 : Option α)
    (num_steps : Option Int) (validate_args : Bool) (allow_nan_stats : Bool)
    (name : String) : Except ARError (Autoregressive α) :=
  let distribution0 := mkDistribution0 distribution_fn sample0
  let steps : Except ARError Int :=
    match num_steps with
    | some k => Except.ok k
    | none =>
      match distribution0.event_shape.num_elements with
      | some k => Except.ok (k : Int)
      | none => Except.error ARError.unknownEventShape
  match steps with
  | Except.error e => Except.error e
  | Except.ok k =>
    if k < 1 then Except.error (ARError.nonPositiveNumSteps k)
    else Except.ok
      { _distribution_fn := distribution_fn
        _sample0 := sample0
        _distribution0 := distribution0
        _num_steps := k
        _dtype := distribution0.dtype
        _reparameterization_type := distribution0.reparameterization_type
        _validate_args := validate_args
        _allow_nan_stats := allow_nan_stats
        _name := name }

/-- Property `distribution_fn` (returns `self._distribution_fn`). -/
def distribution_fn (self : Autoregressive α) : Option α → DistLike α :=
  self._distribution_fn

/-- Property `sample0` (returns `self._sample0`). -/
def sample0 (self : Autoregressive α) : Option α :=
  self._sample0

/-- Property `num_steps` (returns `self._num_steps`). -/
def num_steps (self : Autoregressive α) : Int :=
  self._num_steps

/-- Property `distribution0` (returns `self._distribution0`). -/
def distribution0 (self : Autoregressive α) : DistLike α :=
  self._distribution0

/-- Mirrors `_batch_shape`: `return self.distribution0.batch_shape`. -/
def _batch_shape (self : Autoregressive α) : TensorShape :=
  (distribution0 self).batch_shape

/-- Mirrors `_batch_shape_tensor`: `return self.distribution0.batch_shape_tensor()`. -/
def _batch_shape_tensor (self : Autoregressive α) : α :=
  (distribution0 self).batch_shape_tensor

/-- Mirrors `_event_shape`: `return self.distribution0.event_shape`. -/
def _event_shape (self : Autoregressive α) : TensorShape :=
  (distribution0 self).event_shape

/-- Mirrors `_event_shape_tensor`: `return self.distribution0.event_shape_tensor()`. -/
def _event_shape_tensor (self : Autoregressive α) : α :=
  (distribution0 self).event_shape_tensor

/-- Modelled from the spec: the external `Distribution` base class (not in
the provided sources) exposes `batch_shape` by dispatching to the
subclass's `_batch_shape`. -/
def batch_shape (self : Autoregressive α) : TensorShape :=
  _batch_shape self

/-- Modelled from the spec: base-class `batch_shape_tensor` dispatches to
`_batch_shape_tensor`. -/
def batch_shape_tensor (self : Autoregressive α) : α :=
  _batch_shape_tensor self

/-- Modelled from the spec: base-class `event_shape` dispatches to
`_event_shape`. -/
def event_shape (self : Autoregressive α) : TensorShape :=
  _event_shape self

/-- Modelled from the spec: base-class `event_shape_tensor` dispatches to
`_event_shape_tensor`. -/
def event_shape_tensor (self : Autoregressive α) : α :=
  _event_shape_tensor self

/-- Modelled from the spec: the base-class `dtype` property returns the
`dtype` handed to the base-class constructor (`self._distribution0.dtype`). -/
def dtype (self : Autoregressive α) : Nat :=
  self._dtype

/-- Seed actually used by `_sample_n`: the caller's seed if given, else
`gen_new_seed(seed=np.random.randint(2**32 - 1), salt="autoregressive")`,
with `g` the abstract `gen_new_seed` and `entropy` the random draw. -/
def resolveSeed (g : Nat → String → Nat) (seed : Option Nat) (entropy : Nat) :
    Nat :=
  match seed with
  | none => g entropy "autoregressive"
  | some s => s

/-- Body of the `for _ in range(self._num_steps)` loop:
`samples = self.distribution_fn(samples).sample(seed=seed)`, iterated. -/
def sampleLoop (distribution_fn : Option α → DistLike α) (seed : Nat) :
    Nat → α → α
  | 0, samples => samples
  | k + 1, samples =>
      sampleLoop distribution_fn seed k
        ((distribution_fn (some samples)).sample1 seed)

/-- Mirrors `Autoregressive._sample_n`.  `g` models the external
`distribution_util.gen_new_seed` and `entropy` the `np.random.randint`
draw used only when `seed` is `None`. -/
def _sample_n (g : Nat → String → Nat) (self : Autoregressive α) (n : Nat)
    (seed : Option Nat) (entropy : Nat) : α :=
  let seed := resolveSeed g seed entropy
  let samples := (distribution0 self).sample_n n seed
  sampleLoop (distribution_fn self) seed self._num_steps.toNat samples

/-- Mirrors `Autoregressive._log_prob`:
`return self.distribution_fn(value).log_prob(value)`. -/
def _log_prob (self : Autoregressive α) (value : α) : α :=
  ((distribution_fn self) (some value)).log_prob value

/-- Mirrors `Autoregressive._prob`:
`return self.distribution_fn(value).prob(value)`. -/
def _prob (self : Autoregressive α) (value : α) : α :=
  ((distribution_fn self) (some value)).prob value

/-- State-passing form of `_sample_n`: the method reads attributes and
returns a value; the instance it leaves behind is made explicit so that
frame properties can be stated. -/
def sample_nS (g : Nat → String → Nat) (n : Nat) (seed : Option Nat)
    (entropy : Nat) (self : Autoregressive α) : α × Autoregressive α :=
  (_sample_n g self n seed entropy, self)

/-- State-passing form of `_log_prob`. -/
def log_probS (value : α) (self : Autoregressive α) : α × Autoregressive α :=
  (_log_prob self value, self)

/-- State-passing form of `_prob`. -/
def probS (value : α) (self : Autoregressive α) : α × Autoregressive α :=
  (_prob self value, self)

/-- State-passing form of the property `distribution_fn`. -/
def distribution_fnS (self : Autoregressive α) :
    (Option α → DistLike α) × Autoregressive α :=
  (distribution_fn self, self)

/-- State-passing form of the property `sample0`. -/
def sample0S (self : Autoregressive α) : Option α × Autoregressive α :=
  (sample0 self, self)

/-- State-passing form of the property `num_steps`. -/
def num_stepsS (self : Autoregressive α) : Int × Autoregressive α :=
  (num_steps self, self)

/-- State-passing form of the property `distribution0`. -/
def distribution0S (self : Autoregressive α) : DistLike α × Autoregressive α :=
  (distribution0 self, self)

/-- State-passing form of `batch_shape`. -/
def batch_shapeS (self : Autoregressive α) : TensorShape × Autoregressive α :=
  (batch_shape self, self)

/-- State-passing form of `batch_shape_tensor`. -/
def batch_shape_tensorS (self : Autoregressive α) : α × Autoregressive α :=
  (batch_shape_tensor self, self)

/-- State-passing form of `event_shape`. -/
def event_shapeS (self : Autoregressive α) : TensorShape × Autoregressive α :=
  (event_shape self, self)

/-- State-passing form of `event_shape_tensor`. -/
def event_shape_tensorS (self : Autoregressive α) : α × Autoregressive α :=
  (event_shape_tensor self, self)

/-- State-passing form of `dtype`. -/
def dtypeS (self : Autoregressive α) : Nat × Autoregressive α :=
  (dtype self, self)

/-- Effective step count resolved by the constructor: the explicit
`num_steps` when supplied, else the base distribution's
`event_shape.num_elements()` cast to an integer; `none` when both are
unavailable. -/
def effSteps (num_steps : Option Int) (d : DistLike α) : Option Int :=
  match num_steps with
  | some k => some k
  | none => d.event_shape.num_elements.map (fun n => (n : Int))

/-- Instance built by a successful `__init__` with resolved step count `k`:
the record stored by the success branch of `init`. -/
def mkAR (distribution_fn : Option α → DistLike α) (sample0 : Option α)
    (k : Int) (validate_args : Bool) (allow_nan_stats : Bool) (name : String) :
    Autoregressive α :=
  { _distribution_fn := distribution_fn
    _sample0 := sample0
    _distribution0 := mkDistribution0 distribution_fn sample0
    _num_steps := k
    _dtype := (mkDistribution0 distribution_fn sample0).dtype
    _reparameterization_type :=
      (mkDistribution0 distribution_fn sample0).reparameterization_type
    _validate_args := validate_args
    _allow_nan_stats := allow_nan_stats
    _name := name }

end Autoregressive

/-- Concrete distribution object over `Nat` tensors, used to evaluate the
definitions on closed inputs. -/
def testDist (k : Nat) : DistLike Nat where
  sample_n := fun n seed => n * 100 + seed * 10 + k
  sample1 := fun seed => seed * 10 + k + 1
  log_prob := fun x => x + 3
  prob := fun x => x + 4
  event_shape := ⟨some [some 2, some 3]⟩
  batch_shape := ⟨some [some 5]⟩
  event_shape_tensor := 23
  batch_shape_tensor := 5
  dtype := 7
  reparameterization_type := 1

/-- Concrete `distribution_fn`: builds `testDist` from the input sample
(or `testDist 0` when called with no argument). -/
def testFn : Option Nat → DistLike Nat
  | none => testDist 0
  | some v => testDist v

/-- Concrete distribution object whose event shape has an unknown
dimension, so `num_elements` is `none`. -/
def testDistUnknown : DistLike Nat :=
  { testDist 0 with event_shape := ⟨some [none]⟩ }

/-- Concrete `distribution_fn` always returning `testDistUnknown`. -/
def testFnUnknown : Option Nat → DistLike Nat := fun _ => testDistUnknown

/-- Concrete `Autoregressive` instance over `Nat` tensors with two steps. -/
def arTest : Autoregressive Nat :=
  Autoregressive.mkAR testFn none 2 false true "Autoregressive"

/-- Concrete seed-generation function standing in for
`distribution_util.gen_new_seed` in closed witnesses. -/
def testGen : Nat → String → Nat := fun e _ => e + 1

namespace Autoregressive

variable {α : Type}

/-- Reformulation of `init`: the constructor is the validation of the
effective step count followed by building the stored record. -/
theorem init_eq (dfn : Option α → DistLike α) (s0 : Option α)
    (ns : Option Int) (v a : Bool) (nm : String) :
    init dfn s0 ns v a nm =
      match effSteps ns (mkDistribution0 dfn s0) with
      | none => Except.error ARError.unknownEventShape
      | some k =>
        if k < 1 then Except.error (ARError.nonPositiveNumSteps k)
        else Except.ok (mkAR dfn s0 k v a nm) := by
  cases ns with
  | some k => rfl
  | none =>
    cases h : (mkDistribution0 dfn s0).event_shape.num_elements with
    | none => simp [init, effSteps, h]
    | some m => simp [init, effSteps, h, mkAR]

/-- Characterisation of successful construction: `init` returns `Except.ok`
exactly when the effective step count resolves to some `k ≥ 1`, and then the
result is the record `mkAR` with that `k`. -/
theorem init_ok_iff (dfn : Option α → DistLike α) (s0 : Option α)
    (ns : Option Int) (v a : Bool) (nm : String) (ar : Autoregressive α) :
    init dfn s0 ns v a nm = Except.ok ar ↔
      ∃ k : Int, effSteps ns (mkDistribution0 dfn s0) = some k ∧ 1 ≤ k ∧
        ar = mkAR dfn s0 k v a nm := by
  rw [init_eq]
  cases h : effSteps ns (mkDistribution0 dfn s0) with
  | none => simp
  | some k =>
    by_cases hk : k < 1
    · simp only [if_pos hk]
      constructor
      · intro hcontra
        exact absurd hcontra (by simp)
      · rintro ⟨k', hk', h1, rfl⟩
        injection hk' with hkk
        omega
    · simp only [if_neg hk, Except.ok.injEq]
      constructor
      · intro h1
        exact ⟨k, rfl, by omega, h1.symm⟩
      · rintro ⟨k', hk', h1, rfl⟩
        injection hk' with hkk
        rw [hkk]

/-- Unfolding the sampling loop: `sampleLoop` is iteration of the map
`x ↦ distribution_fn(x).sample(seed=seed)`. -/
theorem sampleLoop_eq_iterate (dfn : Option α → DistLike α) (seed : Nat)
    (k : Nat) (x : α) :
    sampleLoop dfn seed k x =
      (fun s => (dfn (some s)).sample1 seed)^[k] x := by
  induction k generalizing x with
  | zero => rfl
  | succ k ih =>
    rw [sampleLoop, ih, Function.iterate_succ_apply]

/-- Congruence for the sampling loop: its value depends on the distribution
functions only through `sample1` at the one seed it was given. -/
theorem sampleLoop_congr (dfn dfn' : Option α → DistLike α) (seed : Nat)
    (k : Nat) (x : α)
    (h : ∀ y, (dfn' (some y)).sample1 seed = (dfn (some y)).sample1 seed) :
    sampleLoop dfn' seed k x = sampleLoop dfn seed k x := by
  induction k generalizing x with
  | zero => rfl
  | succ k ih =>
    rw [sampleLoop, sampleLoop, h, ih]

end Autoregressive

namespace Autoregressive

variable {α : Type}

/-- Helper: the effective step count is unresolved exactly when `num_steps`
was not supplied and the base distribution's event-shape element count is
unknown. -/
theorem effSteps_none_iff (ns : Option Int) (d : DistLike α) :
    effSteps ns d = none ↔ ns = none ∧ d.event_shape.num_elements = none := by
  cases ns with
  | some k => simp [effSteps]
  | none => cases h : d.event_shape.num_elements <;> simp [effSteps, h]

/-- Claim C1: for every number of draws `n` and every seed, `_sample_n`
first draws samples from the base distribution `distribution0` (the
distribution built in the constructor from `distribution_fn` and `sample0`)
and then, exactly `num_steps` times, replaces the current samples by a
sample of `distribution_fn` applied to those samples; the final samples are
the returned value. -/
theorem sample_n_iterates_distribution_fn (g : Nat → String → Nat)
    (dfn : Option α → DistLike α) (s0 : Option α) (ns : Option Int)
    (v a : Bool) (nm : String) (ar : Autoregressive α) (n : Nat)
    (seed : Option Nat) (entropy : Nat)
    (h : init dfn s0 ns v a nm = Except.ok ar) :
    _sample_n g ar n seed entropy =
      (fun x => (dfn (some x)).sample1 (resolveSeed g seed entropy))^[
        (num_steps ar).toNat]
        ((mkDistribution0 dfn s0).sample_n n (resolveSeed g seed entropy)) := by
  obtain ⟨k, hk, h1, rfl⟩ := (init_ok_iff dfn s0 ns v a nm ar).1 h
  simp only [_sample_n, distribution0, distribution_fn, num_steps, mkAR,
    sampleLoop_eq_iterate]

/-- Witness for C1 at a concrete instance, draw count, seed and entropy. -/
theorem sample_n_iterates_distribution_fn_witness :
    _sample_n testGen arTest 3 (some 4) 0 =
      (fun x => (testFn (some x)).sample1 (resolveSeed testGen (some 4) 0))^[
        (num_steps arTest).toNat]
        ((mkDistribution0 testFn none).sample_n 3
          (resolveSeed testGen (some 4) 0)) :=
  sample_n_iterates_distribution_fn testGen testFn none (some 2) false true
    "Autoregressive" arTest 3 (some 4) 0 rfl

/-- Claim C2: for every input value `x`, `_log_prob x` equals
`distribution_fn(x).log_prob(x)` and `_prob x` equals
`distribution_fn(x).prob(x)`, with no other computation applied. -/
theorem log_prob_prob_are_passthrough (dfn : Option α → DistLike α)
    (s0 : Option α) (ns : Option Int) (v a : Bool) (nm : String)
    (ar : Autoregressive α) (x : α)
    (h : init dfn s0 ns v a nm = Except.ok ar) :
    _log_prob ar x = (dfn (some x)).log_prob x ∧
    _prob ar x = (dfn (some x)).prob x := by
  obtain ⟨k, hk, h1, rfl⟩ := (init_ok_iff dfn s0 ns v a nm ar).1 h
  exact ⟨rfl, rfl⟩

/-- Witness for C2 at a concrete instance and value. -/
theorem log_prob_prob_are_passthrough_witness :
    _log_prob arTest 9 = (testFn (some 9)).log_prob 9 ∧
    _prob arTest 9 = (testFn (some 9)).prob 9 :=
  log_prob_prob_are_passthrough testFn none (some 2) false true
    "Autoregressive" arTest 9 rfl

/-- Claim C3: the constructor raises exactly two validation errors: it
errors when `num_steps` is unspecified and the constructed base
distribution's event shape has an unknown number of elements, and when the
(effective) step count is non-positive; on all other inputs it succeeds. -/
theorem init_raises_exactly_two_validation_errors
    (dfn : Option α → DistLike α) (s0 : Option α) (ns : Option Int)
    (v a : Bool) (nm : String) :
    (∃ e, init dfn s0 ns v a nm = Except.error e) ↔
      (ns = none ∧ (mkDistribution0 dfn s0).event_shape.num_elements = none) ∨
      (∃ k, effSteps ns (mkDistribution0 dfn s0) = some k ∧ k < 1) := by
  rw [init_eq, ← effSteps_none_iff ns (mkDistribution0 dfn s0)]
  cases h : effSteps ns (mkDistribution0 dfn s0) with
  | none => simp
  | some k =>
    by_cases hk : k < 1 <;> simp [hk]

/-- Claim C4: with an explicitly supplied step count `s`, construction
succeeds exactly when `s ≥ 1`, and a non-positive `s` is rejected with the
`num_steps must be at least 1` error carrying `s`. -/
theorem explicit_num_steps_validated_ge_one (dfn : Option α → DistLike α)
    (s0 : Option α) (s : Int) (v a : Bool) (nm : String) :
    ((∃ ar, init dfn s0 (some s) v a nm = Except.ok ar) ↔ 1 ≤ s) ∧
    (s < 1 →
      init dfn s0 (some s) v a nm =
        Except.error (ARError.nonPositiveNumSteps s)) := by
  rw [init_eq]
  constructor
  · by_cases hk : s < 1
    · simp only [effSteps, if_pos hk]
      constructor
      · rintro ⟨ar, har⟩
        exact absurd har (by simp)
      · intro h1
        omega
    · simp only [effSteps, if_neg hk]
      constructor
      · intro _
        omega
      · intro _
        exact ⟨mkAR dfn s0 s v a nm, rfl⟩
  · intro hs
    simp [effSteps, hs]

/-- Witness for C4: a step count of zero is rejected. -/
theorem explicit_num_steps_validated_ge_one_witness :
    init testFn none (some 0) false true "Autoregressive" =
      Except.error (ARError.nonPositiveNumSteps 0) :=
  (explicit_num_steps_validated_ge_one testFn none 0 false true
    "Autoregressive").2 (by decide)

/-- Claim C5: `sample0` is optional: when supplied, the base distribution is
`distribution_fn(sample0)`; when absent, it is `distribution_fn()` (a call
with no argument). -/
theorem sample0_optional_selects_constructor_call
    (dfn : Option α → DistLike α) (x : α) (ns : Option Int) (v a : Bool)
    (nm : String) (ar ar' : Autoregressive α) :
    (init dfn (some x) ns v a nm = Except.ok ar →
      distribution0 ar = dfn (some x)) ∧
    (init dfn none ns v a nm = Except.ok ar' →
      distribution0 ar' = dfn none) := by
  constructor
  · intro h
    obtain ⟨k, hk, h1, rfl⟩ := (init_ok_iff dfn (some x) ns v a nm ar).1 h
    rfl
  · intro h
    obtain ⟨k, hk, h1, rfl⟩ := (init_ok_iff dfn none ns v a nm ar').1 h
    rfl

/-- Witness for C5 with a supplied initial sample. -/
theorem sample0_optional_selects_constructor_call_witness :
    distribution0 (mkAR testFn (some 5) 2 false true "Autoregressive") =
      testFn (some 5) :=
  (sample0_optional_selects_constructor_call testFn 5 (some 2) false true
    "Autoregressive" (mkAR testFn (some 5) 2 false true "Autoregressive")
    arTest).1 rfl

/-- Claim C6: the distribution contract is exposed by delegation: for every
successfully constructed instance, `batch_shape`, `batch_shape_tensor`,
`event_shape`, `event_shape_tensor` and `dtype` equal those of the base
distribution built in the constructor. -/
theorem shapes_and_dtype_delegate_to_distribution0
    (dfn : Option α → DistLike α) (s0 : Option α) (ns : Option Int)
    (v a : Bool) (nm : String) (ar : Autoregressive α)
    (h : init dfn s0 ns v a nm = Except.ok ar) :
    distribution0 ar = mkDistribution0 dfn s0 ∧
    batch_shape ar = (mkDistribution0 dfn s0).batch_shape ∧
    batch_shape_tensor ar = (mkDistribution0 dfn s0).batch_shape_tensor ∧
    event_shape ar = (mkDistribution0 dfn s0).event_shape ∧
    event_shape_tensor ar = (mkDistribution0 dfn s0).event_shape_tensor ∧
    dtype ar = (mkDistribution0 dfn s0).dtype := by
  obtain ⟨k, hk, h1, rfl⟩ := (init_ok_iff dfn s0 ns v a nm ar).1 h
  exact ⟨rfl, rfl, rfl, rfl, rfl, rfl⟩

/-- Witness for C6 at a concrete instance. -/
theorem shapes_and_dtype_delegate_to_distribution0_witness :
    distribution0 arTest = mkDistribution0 testFn none ∧
    batch_shape arTest = (mkDistribution0 testFn none).batch_shape ∧
    batch_shape_tensor arTest =
      (mkDistribution0 testFn none).batch_shape_tensor ∧
    event_shape arTest = (mkDistribution0 testFn none).event_shape ∧
    event_shape_tensor arTest =
      (mkDistribution0 testFn none).event_shape_tensor ∧
    dtype arTest = (mkDistribution0 testFn none).dtype :=
  shapes_and_dtype_delegate_to_distribution0 testFn none (some 2) false true
    "Autoregressive" arTest rfl

/-- Claim C7: every instance returned by the constructor satisfies
`num_steps ≥ 1`, and every operation (sampling, log-prob, prob, the
property accessors and the shape methods) leaves `num_steps` unchanged. -/
theorem num_steps_ge_one_invariant_preserved (dfn : Option α → DistLike α)
    (s0 : Option α) (ns : Option Int) (v a : Bool) (nm : String)
    (ar : Autoregressive α)
    (h : init dfn s0 ns v a nm = Except.ok ar) :
    1 ≤ num_steps ar ∧
    (∀ g n seed entropy,
      num_steps (sample_nS g n seed entropy ar).2 = num_steps ar) ∧
    (∀ x, num_steps (log_probS x ar).2 = num_steps ar) ∧
    (∀ x, num_steps (probS x ar).2 = num_steps ar) ∧
    num_steps (distribution_fnS ar).2 = num_steps ar ∧
    num_steps (sample0S ar).2 = num_steps ar ∧
    num_steps (num_stepsS ar).2 = num_steps ar ∧
    num_steps (distribution0S ar).2 = num_steps ar ∧
    num_steps (batch_shapeS ar).2 = num_steps ar ∧
    num_steps (batch_shape_tensorS ar).2 = num_steps ar ∧
    num_steps (event_shapeS ar).2 = num_steps ar ∧
    num_steps (event_shape_tensorS ar).2 = num_steps ar ∧
    num_steps (dtypeS ar).2 = num_steps ar := by
  obtain ⟨k, hk, h1, rfl⟩ := (init_ok_iff dfn s0 ns v a nm ar).1 h
  exact ⟨h1, fun _ _ _ _ => rfl, fun _ => rfl, fun _ => rfl, rfl, rfl, rfl,
    rfl, rfl, rfl, rfl, rfl, rfl⟩

/-- Witness for C7 at a concrete instance. -/
theorem num_steps_ge_one_invariant_preserved_witness :
    1 ≤ num_steps arTest ∧
    num_steps (log_probS 9 arTest).2 = num_steps arTest :=
  have h := num_steps_ge_one_invariant_preserved testFn none (some 2) false
    true "Autoregressive" arTest rfl
  ⟨h.1, h.2.2.1 9⟩

/-- Claim C8: when `num_steps` is not supplied and the base distribution's
event shape is fully known, the constructor behaves exactly as if
`num_steps` had been supplied as `event_shape.num_elements()`, and a
successfully constructed instance stores that count. -/
theorem num_steps_defaults_to_event_shape_num_elements
    (dfn : Option α → DistLike α) (s0 : Option α) (v a : Bool) (nm : String)
    (k : Nat)
    (h : (mkDistribution0 dfn s0).event_shape.num_elements = some k) :
    init dfn s0 none v a nm = init dfn s0 (some (k : Int)) v a nm ∧
    (∀ ar, init dfn s0 none v a nm = Except.ok ar →
      num_steps ar = (k : Int)) := by
  have he : effSteps none (mkDistribution0 dfn s0) = some ((k : Nat) : Int) := by
    simp [effSteps, h]
  constructor
  · rw [init_eq, init_eq, he]
    rfl
  · intro ar har
    obtain ⟨k', hk', h1, rfl⟩ := (init_ok_iff dfn s0 none v a nm ar).1 har
    rw [he] at hk'
    injection hk' with hkk
    exact hkk.symm

/-- Witness for C8: the test distribution has event shape `[2, 3]`, so the
default step count is `6`. -/
theorem num_steps_defaults_to_event_shape_num_elements_witness :
    init testFn none none false true "Autoregressive" =
      init testFn none (some ((6 : Nat) : Int)) false true "Autoregressive" :=
  (num_steps_defaults_to_event_shape_num_elements testFn none false true
    "Autoregressive" 6 rfl).1

/-- Claim C9: one single seed is used for every draw in `_sample_n`: the
result depends on the base distribution and on `distribution_fn` only
through their sampling behaviour at the one resolved seed (fresh only when
the caller passed no seed), and with a fixed explicit seed the result is
independent of the entropy source and of the seed-generation function. -/
theorem sample_n_uses_single_seed (g : Nat → String → Nat)
    (ar ar' : Autoregressive α) (n : Nat) (seed : Option Nat) (entropy : Nat)
    (hst : num_steps ar' = num_steps ar)
    (h0 : (distribution0 ar').sample_n n (resolveSeed g seed entropy) =
      (distribution0 ar).sample_n n (resolveSeed g seed entropy))
    (h1 : ∀ x,
      ((distribution_fn ar') (some x)).sample1 (resolveSeed g seed entropy) =
      ((distribution_fn ar) (some x)).sample1 (resolveSeed g seed entropy)) :
    _sample_n g ar' n seed entropy = _sample_n g ar n seed entropy ∧
    (∀ s e1 e2 (g2 : Nat → String → Nat),
      _sample_n g ar n (some s) e1 = _sample_n g2 ar n (some s) e2) := by
  constructor
  · have hst' : ar'._num_steps = ar._num_steps := hst
    simp only [_sample_n, hst', h0]
    exact sampleLoop_congr (distribution_fn ar) (distribution_fn ar') _ _ _ h1
  · intro s e1 e2 g2
    rfl

/-- Witness for C9: with an explicit seed the entropy argument is
irrelevant. -/
theorem sample_n_uses_single_seed_witness :
    _sample_n testGen arTest 1 (some 4) 0 =
      _sample_n testGen arTest 1 (some 4) 99 :=
  (sample_n_uses_single_seed testGen arTest arTest 1 (some 4) 0 rfl rfl
    (fun _ => rfl)).2 4 0 99 testGen

/-- Claim C10: `_sample_n`, `_log_prob` and `_prob` are read-only: they
leave the instance unchanged, and the public properties return exactly the
values stored by the constructor. -/
theorem operations_read_only_properties_return_stored
    (dfn : Option α → DistLike α) (s0 : Option α) (ns : Option Int)
    (v a : Bool) (nm : String) (ar : Autoregressive α)
    (h : init dfn s0 ns v a nm = Except.ok ar) :
    (∀ g n seed entropy, (sample_nS g n seed entropy ar).2 = ar) ∧
    (∀ x, (log_probS x ar).2 = ar) ∧
    (∀ x, (probS x ar).2 = ar) ∧
    distribution_fn ar = dfn ∧
    sample0 ar = s0 ∧
    effSteps ns (mkDistribution0 dfn s0) = some (num_steps ar) ∧
    distribution0 ar = mkDistribution0 dfn s0 := by
  obtain ⟨k, hk, h1, rfl⟩ := (init_ok_iff dfn s0 ns v a nm ar).1 h
  exact ⟨fun _ _ _ _ => rfl, fun _ => rfl, fun _ => rfl, rfl, rfl, hk, rfl⟩

/-- Witness for C10 at a concrete instance. -/
theorem operations_read_only_properties_return_stored_witness :
    (log_probS 9 arTest).2 = arTest ∧ sample0 arTest = none :=
  have h := operations_read_only_properties_return_stored testFn none
    (some 2) false true "Autoregressive" arTest rfl
  ⟨h.2.1 9, h.2.2.2.2.1⟩

end Autoregressive
